import Mathlib

/-!
Shallow embedding of the shoe-size prediction core of `app/app.py`:
the model/encoder loader `load_models`, the prediction service
`predict_shoe_size`, and the input guards of `main`.

External collaborators (the pickled scikit-learn regression model and
`LabelEncoder`, numpy, and streamlit's `st.cache_resource` /
`st.error` / `st.stop`) are modelled as explicit Lean data:
exceptions become an `Except` value, `st.error` calls are collected in
a message list, `st.stop` becomes an absent result, and file reads are
recorded as a trace of paths so that caching claims can be stated.
Numeric values carried by the model are rationals; Python's
`round(x, 2)` (round-half-to-even at two decimal places) is
`pyRound2`.
-/

set_option autoImplicit false

namespace ShoeApp

/-- A Python exception reaching one of the `except` clauses in
`app.py`: either a `ValueError` (matched by the first clause of
`predict_shoe_size`) or any other `Exception`, each carrying its
`str(e)` message. -/
inductive PyExc where
  | valueError (msg : String)
  | otherError (msg : String)
  deriving DecidableEq, Repr

/-- The deserialized regression model: an opaque capability whose
`predict` either returns a numeric value for a feature row or raises.
`app.py` calls `model.predict(input_data)[0]`; we model the single
returned entry. -/
structure Model where
  predictFn : List ℚ → Except PyExc ℚ

/-- The deserialized label encoder: its ordered `classes_` attribute
(read by `main` to populate the select box) and its `transform`
behaviour on a single label, which either returns an integer code or
raises. -/
structure LabelEncoder where
  classes_ : List String
  transformFn : String → Except PyExc Nat

/-- Behaviour of a scikit-learn `LabelEncoder.transform` on one label:
the code of a known label is its index in `classes_`; an unseen label
raises `ValueError`. -/
def sklearnTransform (cs : List String) (g : String) : Except PyExc Nat :=
  if g ∈ cs then .ok (cs.indexOf g)
  else .error (.valueError ("y contains previously unseen labels: " ++ g))

/-- An encoder conforming to the scikit-learn `LabelEncoder` contract:
`transform` succeeds exactly on members of `classes_`, returning the
label index, and raises `ValueError` on anything else. -/
def LabelEncoder.Conforming (e : LabelEncoder) : Prop :=
  ∀ g : String,
    (g ∈ e.classes_ → e.transformFn g = .ok (e.classes_.indexOf g)) ∧
    (g ∉ e.classes_ → ∃ m, e.transformFn g = .error (.valueError m))

/-- Round a rational to the nearest integer, ties to even
(Python's rounding mode for `round`). -/
def roundHalfEven (q : ℚ) : ℤ :=
  if q - ⌊q⌋ < 1 / 2 then ⌊q⌋
  else if 1 / 2 < q - ⌊q⌋ then ⌊q⌋ + 1
  else if ⌊q⌋ % 2 = 0 then ⌊q⌋ else ⌊q⌋ + 1

/-- Python's `round(x, 2)`: round to two decimal places,
ties to even. -/
def pyRound2 (q : ℚ) : ℚ := ((roundHalfEven (q * 100) : ℤ) : ℚ) / 100

/-- Observable outcome of one `predict_shoe_size` call: the returned
value (`none` for the `return None` paths), the `st.error` messages
shown, whether `model.predict` was invoked, and the feature row it was
given. -/
structure PredictOutcome where
  result : Option ℚ
  errors : List String
  modelCalled : Bool
  featuresUsed : Option (List ℚ)

/-- The two `except` clauses of `predict_shoe_size`: a `ValueError`
is reported as an invalid gender value (the message names the `gender`
argument), any other exception as a generic prediction error; both
paths `return None`. -/
def excHandler (gender : String) (e : PyExc) : List String :=
  match e with
  | .valueError _ =>
      ["❌ Invalid gender value: " ++ gender ++ ". Please select from available options."]
  | .otherError m => ["❌ Prediction error: " ++ m]

/-- `predict_shoe_size(age, height, gender, model, label_encoder)`:
encode the gender, assemble the row `[age, height, gender_encoded]`,
run `model.predict`, and return the result rounded to two decimal
places; any exception is handled by the `except` clauses and yields
`None`. Note the function performs no range check on age or height. -/
def predict_shoe_size (age height : ℤ) (gender : String)
    (model : Model) (label_encoder : LabelEncoder) : PredictOutcome :=
  match label_encoder.transformFn gender with
  | .error e => ⟨none, excHandler gender e, false, none⟩
  | .ok gender_encoded =>
      match model.predictFn [(age : ℚ), (height : ℚ), (gender_encoded : ℚ)] with
      | .error e =>
          ⟨none, excHandler gender e, true,
            some [(age : ℚ), (height : ℚ), (gender_encoded : ℚ)]⟩
      | .ok prediction =>
          ⟨some (pyRound2 prediction), [], true,
            some [(age : ℚ), (height : ℚ), (gender_encoded : ℚ)]⟩

/-- Path of the serialized regression model artifact. -/
def modelPath : String := "assets/model.pkl"

/-- Path of the serialized label encoder artifact. -/
def encoderPath : String := "assets/label_encoder.pkl"

/-- `st.error` message when the assets directory is absent. -/
def msgAssetsMissing : String :=
  "❌ Assets folder not found! Please create an \x27assets/\x27 folder with the required model files."

/-- `st.error` message when `assets/model.pkl` is absent. -/
def msgModelMissing : String := "❌ model.pkl not found in assets/ folder!"

/-- `st.error` message when `assets/label_encoder.pkl` is absent. -/
def msgEncoderMissing : String := "❌ label_encoder.pkl not found in assets/ folder!"

/-- The generic `except` message of `load_models`, with `str(e)`
appended (`str` of the `StopException` raised by `st.stop()` is
empty). -/
def msgLoadFailure (s : String) : String := "❌ Error loading model files: " ++ s

/-- The second `st.error` message of the `except` clause of
`load_models`. -/
def msgEnsureAssets : String :=
  "Please ensure both \x27model.pkl\x27 and \x27label_encoder.pkl\x27 are in the \x27assets/\x27 folder"

/-- The storage state `load_models` runs against: whether the assets
directory exists, and for each artifact `none` when the file is
absent, `some (.error m)` when present but deserialization raises with
message `m`, and `some (.ok x)` when it deserializes to `x`. -/
structure FileSystem where
  assetsDirExists : Bool
  modelFile : Option (Except String Model)
  encoderFile : Option (Except String LabelEncoder)

/-- One run of the body of `load_models`: the returned pair (`none`
when the run ends in `st.stop()`), the `st.error` messages shown, and
the artifact paths actually opened and deserialized, in order. -/
structure BodyRun where
  result : Option (Model × LabelEncoder)
  errors : List String
  reads : List String

/-- The body of `load_models` (without the `st.cache_resource`
cache): check the assets directory, check and unpickle `model.pkl`,
then check and unpickle `label_encoder.pkl`. The `st.stop()` raised
after each missing-file `st.error` is a `StopException`, which the
`except Exception` clause catches (with empty `str(e)`) before
stopping for good; a deserialization failure reaches the same clause
with its own message. -/
def load_models_once (fs : FileSystem) : BodyRun :=
  if fs.assetsDirExists = false then
    ⟨none, [msgAssetsMissing, msgLoadFailure "", msgEnsureAssets], []⟩
  else
    match fs.modelFile with
    | none => ⟨none, [msgModelMissing, msgLoadFailure "", msgEnsureAssets], []⟩
    | some (.error em) => ⟨none, [msgLoadFailure em, msgEnsureAssets], [modelPath]⟩
    | some (.ok model) =>
        match fs.encoderFile with
        | none =>
            ⟨none, [msgEncoderMissing, msgLoadFailure "", msgEnsureAssets], [modelPath]⟩
        | some (.error ee) =>
            ⟨none, [msgLoadFailure ee, msgEnsureAssets], [modelPath, encoderPath]⟩
        | some (.ok label_encoder) =>
            ⟨some (model, label_encoder), [], [modelPath, encoderPath]⟩

/-- Outcome of one call to the cached `load_models`: the returned
pair, the cache contents afterwards, the `st.error` messages, and the
paths read during this call. -/
structure LoadOutcome where
  result : Option (Model × LabelEncoder)
  cacheAfter : Option (Model × LabelEncoder)
  errors : List String
  reads : List String

/-- `load_models` as decorated with `@st.cache_resource`: a hit on the
process-wide cache returns the stored handles with no file access; a
miss runs the body, and a successful return value is stored (a run
that ends in `st.stop()` stores nothing). -/
def load_models (fs : FileSystem) (cache : Option (Model × LabelEncoder)) : LoadOutcome :=
  match cache with
  | some h => ⟨some h, some h, [], []⟩
  | none => ⟨(load_models_once fs).result, (load_models_once fs).result,
      (load_models_once fs).errors, (load_models_once fs).reads⟩

/-- The input validation of `main` on the predict-button branch:
age range, then height range, then Python truthiness of the gender
string (empty string is falsy). Returns the argument triple passed on
to `predict_shoe_size`, or `none` when an `st.error` is shown
instead. -/
def main_guard (age height : ℤ) (gender : String) : Option (ℤ × ℤ × String) :=
  if age < 1 ∨ age > 100 then none
  else if height < 50 ∨ height > 250 then none
  else if gender = "" then none
  else some (age, height, gender)

/-- The predict-button branch of `main` as wired: `predict_shoe_size`
is invoked, with the raw widget values, exactly when all three guards
pass. -/
def main_on_click (age height : ℤ) (gender : String)
    (model : Model) (label_encoder : LabelEncoder) : Option PredictOutcome :=
  match main_guard age height gender with
  | none => none
  | some (a, h, g) => some (predict_shoe_size a h g model label_encoder)

/-- A concrete well-behaved encoder over two labels,
used for witnesses. -/
def cEnc : LabelEncoder :=
  ⟨["Female", "Male"], sklearnTransform ["Female", "Male"]⟩

/-- A concrete model that always predicts `7`, used for witnesses. -/
def cModel : Model := ⟨fun _ => .ok 7⟩

/-- A concrete model whose `predict` always raises,
used for witnesses. -/
def cModelFail : Model := ⟨fun _ => .error (.otherError "shape mismatch")⟩

/-- A storage state with both artifacts present and readable. -/
def fsOk : FileSystem := ⟨true, some (.ok cModel), some (.ok cEnc)⟩

/-- A storage state where `assets/` exists but `model.pkl`
is absent. -/
def fsNoModel : FileSystem := ⟨true, none, some (.ok cEnc)⟩

theorem cEnc_conforming : cEnc.Conforming := by
  intro g
  constructor
  · intro h
    have h2 : g = "Female" ∨ g = "Male" := by simpa [cEnc] using h
    rcases h2 with h2 | h2 <;> subst h2 <;> rfl
  · intro h
    have h2 : ¬(g = "Female" ∨ g = "Male") := by simpa [cEnc] using h
    refine ⟨"y contains previously unseen labels: " ++ g, ?_⟩
    show sklearnTransform ["Female", "Male"] g = _
    rw [sklearnTransform, if_neg]
    simpa using h2

/-- C1: For every age in [1,100], every height in [50,250], and every
gender in the known label set of a conforming encoder, whenever the
model's raw output on the feature row [age, height, code(gender)] is
`v`, `predict_shoe_size` returns exactly `v` rounded to two decimal
places — an integer multiple of 1/100. -/
theorem C1_predict_returns_rounded_model_output
    (age height : ℤ) (gender : String) (model : Model) (enc : LabelEncoder) (v : ℚ)
    (hage : 1 ≤ age ∧ age ≤ 100) (hheight : 50 ≤ height ∧ height ≤ 250)
    (hconf : enc.Conforming) (hg : gender ∈ enc.classes_)
    (hm : model.predictFn
        [(age : ℚ), (height : ℚ), ((enc.classes_.indexOf gender : ℕ) : ℚ)] = .ok v) :
    (predict_shoe_size age height gender model enc).result = some (pyRound2 v) ∧
    ∃ n : ℤ, pyRound2 v = (n : ℚ) / 100 := by
  have ht := (hconf gender).1 hg
  refine ⟨?_, ⟨roundHalfEven (v * 100), rfl⟩⟩
  simp only [predict_shoe_size, ht, hm]

/-- C1 witness at age 18, height 170, gender "Male" with a concrete
conforming encoder and a model returning 7. -/
theorem C1_witness :
    (1 ≤ (18 : ℤ) ∧ (18 : ℤ) ≤ 100) ∧ (50 ≤ (170 : ℤ) ∧ (170 : ℤ) ≤ 250) ∧
    "Male" ∈ cEnc.classes_ ∧
    ((predict_shoe_size 18 170 "Male" cModel cEnc).result = some (pyRound2 7) ∧
      ∃ n : ℤ, pyRound2 7 = (n : ℚ) / 100) :=
  ⟨by decide, by decide, by decide,
    C1_predict_returns_rounded_model_output 18 170 "Male" cModel cEnc 7
      (by decide) (by decide) cEnc_conforming (by decide) rfl⟩

/-- C2 counterexample: with age 0 — outside [1,100] — a known gender
and a working model, `predict_shoe_size` itself raises no validation
error at all: it shows no error message and returns a numeric result,
refuting the claim that the service rejects out-of-range age
regardless of caller-side checks. -/
theorem C2_counterexample :
    (predict_shoe_size 0 170 "Male" cModel cEnc).result = some (pyRound2 7) ∧
    (predict_shoe_size 0 170 "Male" cModel cEnc).errors = [] :=
  ⟨rfl, rfl⟩

/-- C2 amended: `predict_shoe_size` performs no age or height range
validation itself — for every age and height, in range or not, with a
gender the encoder accepts and a model that returns a value, it
returns the rounded model output and shows no error; the range checks
live only in the caller `main` (see C10). -/
theorem C2_amended_no_range_check_in_service
    (age height : ℤ) (gender : String) (model : Model) (enc : LabelEncoder)
    (code : ℕ) (v : ℚ)
    (ht : enc.transformFn gender = .ok code)
    (hm : model.predictFn [(age : ℚ), (height : ℚ), (code : ℚ)] = .ok v) :
    (predict_shoe_size age height gender model enc).result = some (pyRound2 v) ∧
    (predict_shoe_size age height gender model enc).errors = [] := by
  simp only [predict_shoe_size, ht, hm]
  exact ⟨trivial, trivial⟩

/-- C2 witness at the out-of-range input age 0, height 300. -/
theorem C2_witness :
    (predict_shoe_size 0 300 "Male" cModel cEnc).result = some (pyRound2 7) ∧
    (predict_shoe_size 0 300 "Male" cModel cEnc).errors = [] :=
  C2_amended_no_range_check_in_service 0 300 "Male" cModel cEnc 1 7 rfl rfl

/-- C3: For every gender outside a conforming encoder's label set
(the empty string included), `predict_shoe_size` returns the failure
signal `None`, shows exactly one error message naming the offending
gender value, and never invokes the model. -/
theorem C3_unknown_gender_rejected_without_model_call
    (age height : ℤ) (gender : String) (model : Model) (enc : LabelEncoder)
    (hconf : enc.Conforming) (hg : gender ∉ enc.classes_) :
    (predict_shoe_size age height gender model enc).result = none ∧
    (predict_shoe_size age height gender model enc).errors =
      ["❌ Invalid gender value: " ++ gender ++ ". Please select from available options."] ∧
    (predict_shoe_size age height gender model enc).modelCalled = false := by
  obtain ⟨m, hm⟩ := (hconf gender).2 hg
  simp only [predict_shoe_size, hm]
  exact ⟨trivial, rfl, trivial⟩

/-- C3 witness at the empty gender string. -/
theorem C3_witness :
    "" ∉ cEnc.classes_ ∧
    ((predict_shoe_size 18 170 "" cModel cEnc).result = none ∧
     (predict_shoe_size 18 170 "" cModel cEnc).errors =
       ["❌ Invalid gender value: " ++ "" ++ ". Please select from available options."] ∧
     (predict_shoe_size 18 170 "" cModel cEnc).modelCalled = false) :=
  ⟨by decide,
    C3_unknown_gender_rejected_without_model_call 18 170 "" cModel cEnc
      cEnc_conforming (by decide)⟩

/-- C4: Whenever the encoder returns a code for the input gender, the
feature row handed to the model is exactly [age, height, code], in
that order. -/
theorem C4_feature_vector_order
    (age height : ℤ) (gender : String) (model : Model) (enc : LabelEncoder) (code : ℕ)
    (ht : enc.transformFn gender = .ok code) :
    (predict_shoe_size age height gender model enc).featuresUsed =
      some [(age : ℚ), (height : ℚ), (code : ℚ)] := by
  simp only [predict_shoe_size, ht]
  cases hp : model.predictFn [(age : ℚ), (height : ℚ), (code : ℚ)] <;> simp [hp]

/-- C4 witness: "Male" encodes to 1 in the concrete encoder and the
row is [18, 170, 1]. -/
theorem C4_witness :
    (predict_shoe_size 18 170 "Male" cModel cEnc).featuresUsed =
      some [(18 : ℚ), (170 : ℚ), ((1 : ℕ) : ℚ)] :=
  C4_feature_vector_order 18 170 "Male" cModel cEnc 1 rfl

/-- C5: On every failing call — the encoder raising, or the model
raising after a successful encoding — `predict_shoe_size` returns the
failure signal `None`, never a numeric value. -/
theorem C5_failure_returns_none
    (age height : ℤ) (gender : String) (model : Model) (enc : LabelEncoder) (e : PyExc)
    (h : enc.transformFn gender = .error e ∨
         ∃ code : ℕ, enc.transformFn gender = .ok code ∧
           model.predictFn [(age : ℚ), (height : ℚ), (code : ℚ)] = .error e) :
    (predict_shoe_size age height gender model enc).result = none := by
  rcases h with h | ⟨code, ht, hm⟩
  · simp only [predict_shoe_size, h]
  · simp only [predict_shoe_size, ht, hm]

/-- C5 witness: a model whose `predict` raises yields `None`. -/
theorem C5_witness :
    (predict_shoe_size 18 170 "Male" cModelFail cEnc).result = none :=
  C5_failure_returns_none 18 170 "Male" cModelFail cEnc (.otherError "shape mismatch")
    (Or.inr ⟨1, rfl, rfl⟩)

/-- C6: `load_models` is idempotent: when a first call (empty cache)
succeeds with a pair of handles, the cache then holds that pair, a
second call returns the very same handles while reading no file at
all, and the first call read each artifact exactly once — one read of
the model artifact and one of the encoder artifact per process
lifetime. -/
theorem C6_load_models_idempotent (fs : FileSystem) (hdl : Model × LabelEncoder)
    (h : (load_models fs none).result = some hdl) :
    (load_models fs ((load_models fs none).cacheAfter)).result = some hdl ∧
    (load_models fs ((load_models fs none).cacheAfter)).reads = [] ∧
    (load_models fs none).reads = [modelPath, encoderPath] := by
  have hc : (load_models fs none).cacheAfter = some hdl := by
    simpa [load_models] using h
  refine ⟨by rw [hc]; rfl, by rw [hc]; rfl, ?_⟩
  rcases fs with ⟨dir, mf, ef⟩
  cases dir <;> rcases mf with _ | (em | m) <;> rcases ef with _ | (ee | en) <;>
    simp_all [load_models, load_models_once]

/-- C6 witness on a storage state with both artifacts present. -/
theorem C6_witness :
    (load_models fsOk ((load_models fsOk none).cacheAfter)).result = some (cModel, cEnc) ∧
    (load_models fsOk ((load_models fsOk none).cacheAfter)).reads = [] ∧
    (load_models fsOk none).reads = [modelPath, encoderPath] :=
  C6_load_models_idempotent fsOk (cModel, cEnc) rfl

/-- C7: When the assets directory exists but `assets/model.pkl` is
absent, a fresh `load_models` call returns no handles, its first error
message names the model artifact specifically — a message distinct
from the missing-directory and missing-encoder ones — and the call
reads no artifact at all; in particular the encoder artifact is never
read. -/
theorem C7_missing_model_artifact (fs : FileSystem)
    (hdir : fs.assetsDirExists = true) (hmf : fs.modelFile = none) :
    (load_models fs none).result = none ∧
    (load_models fs none).errors.head? = some msgModelMissing ∧
    msgModelMissing ≠ msgAssetsMissing ∧
    msgModelMissing ≠ msgEncoderMissing ∧
    (load_models fs none).reads = [] ∧
    encoderPath ∉ (load_models fs none).reads := by
  rcases fs with ⟨dir, mf, ef⟩
  cases hdir
  cases hmf
  exact ⟨rfl, rfl, by decide, by decide, rfl, by simp [load_models, load_models_once]⟩

/-- C7 witness on the storage state with `model.pkl` absent. -/
theorem C7_witness :
    (load_models fsNoModel none).result = none ∧
    (load_models fsNoModel none).errors.head? = some msgModelMissing ∧
    msgModelMissing ≠ msgAssetsMissing ∧
    msgModelMissing ≠ msgEncoderMissing ∧
    (load_models fsNoModel none).reads = [] ∧
    encoderPath ∉ (load_models fsNoModel none).reads :=
  C7_missing_model_artifact fsNoModel rfl rfl

/-- C8: `predict_shoe_size` is deterministic: two calls with the same
age, height and gender, against handles whose encode and predict
behaviours agree, produce the same outcome. -/
theorem C8_predict_deterministic
    (age height : ℤ) (gender : String) (m₁ m₂ : Model) (e₁ e₂ : LabelEncoder)
    (henc : e₁.transformFn gender = e₂.transformFn gender)
    (hmod : ∀ row : List ℚ, m₁.predictFn row = m₂.predictFn row) :
    predict_shoe_size age height gender m₁ e₁ = predict_shoe_size age height gender m₂ e₂ := by
  cases ht : e₂.transformFn gender with
  | error e =>
    have ht1 : e₁.transformFn gender = .error e := henc.trans ht
    simp only [predict_shoe_size, ht, ht1]
  | ok code =>
    have ht1 : e₁.transformFn gender = .ok code := henc.trans ht
    simp only [predict_shoe_size, ht, ht1, hmod]

/-- C8 witness: the same concrete handles on both sides. -/
theorem C8_witness :
    predict_shoe_size 18 170 "Male" cModel cEnc =
      predict_shoe_size 18 170 "Male" cModel cEnc :=
  C8_predict_deterministic 18 170 "Male" cModel cModel cEnc cEnc rfl (fun _ => rfl)

/-- C9: `predict_shoe_size` is total at its interface: whatever the
encoder and the model do — returning values or raising either kind of
exception — every call produces either the failure signal `None` or a
rounded value of the model output; no exception escapes. -/
theorem C9_predict_total
    (age height : ℤ) (gender : String) (model : Model) (enc : LabelEncoder) :
    (predict_shoe_size age height gender model enc).result = none ∨
    ∃ code : ℕ, ∃ v : ℚ, enc.transformFn gender = .ok code ∧
      model.predictFn [(age : ℚ), (height : ℚ), (code : ℚ)] = .ok v ∧
      (predict_shoe_size age height gender model enc).result = some (pyRound2 v) := by
  cases ht : enc.transformFn gender with
  | error e => left; simp only [predict_shoe_size, ht]
  | ok code =>
    cases hm : model.predictFn [(age : ℚ), (height : ℚ), (code : ℚ)] with
    | error e => left; simp only [predict_shoe_size, ht, hm]
    | ok v =>
      right
      exact ⟨code, v, rfl, hm, by simp only [predict_shoe_size, ht, hm]⟩

/-- C10: In `main` as wired, `predict_shoe_size` is invoked only after
the caller-side guards pass: whenever the predict-button branch
reaches the call, the age is in [1,100], the height in [50,250], the
gender string non-empty, and the call receives exactly the raw widget
values. -/
theorem C10_main_guards_protect_predict
    (age height : ℤ) (gender : String) (model : Model) (enc : LabelEncoder)
    (h : main_on_click age height gender model enc ≠ none) :
    (1 ≤ age ∧ age ≤ 100) ∧ (50 ≤ height ∧ height ≤ 250) ∧ gender ≠ "" ∧
    main_on_click age height gender model enc =
      some (predict_shoe_size age height gender model enc) := by
  simp only [main_on_click, main_guard] at h ⊢
  split_ifs at h ⊢ with h1 h2 h3
  · exact absurd rfl h
  · exact absurd rfl h
  · exact absurd rfl h
  · push_neg at h1 h2
    exact ⟨⟨h1.1, h1.2⟩, ⟨h2.1, h2.2⟩, h3, rfl⟩

/-- C10 witness at the in-range input (18, 170, "Male"). -/
theorem C10_witness :
    (1 ≤ (18 : ℤ) ∧ (18 : ℤ) ≤ 100) ∧ (50 ≤ (170 : ℤ) ∧ (170 : ℤ) ≤ 250) ∧
    "Male" ≠ "" ∧
    main_on_click 18 170 "Male" cModel cEnc =
      some (predict_shoe_size 18 170 "Male" cModel cEnc) :=
  C10_main_guards_protect_predict 18 170 "Male" cModel cEnc
    (fun hc => Option.noConfusion hc)

end ShoeApp
